import Mathlib

/-!
Verification development for the WTL-S-LCARS backend.

This file gives a shallow embedding of the device status / lifecycle code of
`backend/api/minecraft.py` and `backend/api/printer.py` and proves properties
about it. External effects (subprocess return codes, raised exceptions,
process-table scans, MQTT connection state, HTTP poll responses, the log
file's contents) are modelled as explicit environment parameters; each Python
function becomes a pure Lean function of the environment and the prior state,
returning its result together with the trace of external actions it issued.
-/

namespace LCARS

/-! ## Minecraft server detection (`is_server_running`, minecraft.py lines 36-69)

The function runs three probes in order: a systemd `is-active` query, a
`screen -ls` session query, and a psutil scan for a java process running
`paper.jar`.  Each probe can report positive (`some true`), negative
(`some false`), or raise an exception (`none`): the whole chain is wrapped in
one bare `try/except` that returns `False` on any raise, so an erroring probe
aborts the probes after it. -/

structure DetectEnv where
  /-- `systemctl is-active --quiet minecraft` returned 0 (`some true`),
      returned nonzero (`some false`), or raised, e.g. timed out (`none`). -/
  systemdActive : Option Bool
  /-- `screen -ls mcserver` stdout contains the session name, or raised. -/
  screenHasSession : Option Bool
  /-- the psutil scan found a java process whose cmdline mentions `paper.jar`,
      or `process_iter` itself raised. -/
  javaPaperProc : Option Bool
  deriving DecidableEq, Repr

def is_server_running (e : DetectEnv) : Bool :=
  match e.systemdActive with
  | none => false
  | some true => true
  | some false =>
    match e.screenHasSession with
    | none => false
    | some true => true
    | some false =>
      match e.javaPaperProc with
      | none => false
      | some b => b

/-! ## Minecraft `stop` (minecraft.py lines 192-253)

The escalation chain: precondition check, then
1. `sudo systemctl stop minecraft` — on return code 0, success is returned
   immediately (no wait, no re-detection);
2. if an `mcrcon` binary exists, `mcrcon ... stop`, `sleep(3)`, re-detect —
   success when re-detection reports stopped (the block's exceptions are
   swallowed and fall through);
3. `screen -S mcserver -X stuff stop\n`, `sleep(3)`, re-detect — likewise;
4. look up the server pid and terminate/kill it, then return success
   unconditionally.
The first `subprocess.run` (step 1) is not wrapped in an inner try, so a raise
there propagates to the outer handler and yields a 500 error. -/

inductive StopAction where
  | systemctlStop
  | rconStop
  | screenStuffStop
  | killProcess
  deriving DecidableEq, Repr

inductive StopResult where
  /-- HTTP 400, body `Server is not running`. -/
  | notRunningError
  /-- HTTP 200, body `status: stopped`. -/
  | stopped
  /-- HTTP 500 from the outer exception handler. -/
  | exceptionError
  deriving DecidableEq, Repr

structure StopEnv where
  /-- external state seen by the initial `is_server_running()` call. -/
  detectAtEntry : DetectEnv
  /-- return code of `sudo systemctl stop minecraft`; `none` = raised. -/
  systemctlRc : Option Nat
  /-- an `mcrcon` binary exists at one of the probed paths. -/
  mcrconExists : Bool
  /-- the `mcrcon ... stop` subprocess call raised (e.g. timed out). -/
  rconRaises : Bool
  /-- external state seen by the re-detection after the rcon step's sleep. -/
  detectAfterRcon : DetectEnv
  /-- the `screen ... stuff` subprocess call raised. -/
  screenRaises : Bool
  /-- external state seen by the re-detection after the screen step's sleep. -/
  detectAfterScreen : DetectEnv
  /-- pid found by `get_server_pid()`, if any. -/
  pid : Option Nat
  deriving DecidableEq, Repr

def stop (e : StopEnv) : StopResult × List StopAction :=
  if ¬ is_server_running e.detectAtEntry then
    (.notRunningError, [])
  else
    match e.systemctlRc with
    | none => (.exceptionError, [.systemctlStop])
    | some rc =>
      if rc = 0 then (.stopped, [.systemctlStop])
      else
        let afterRcon : List StopAction :=
          if e.mcrconExists then [.systemctlStop, .rconStop] else [.systemctlStop]
        if e.mcrconExists ∧ ¬ e.rconRaises ∧ ¬ is_server_running e.detectAfterRcon then
          (.stopped, afterRcon)
        else
          let afterScreen := afterRcon ++ [StopAction.screenStuffStop]
          if ¬ e.screenRaises ∧ ¬ is_server_running e.detectAfterScreen then
            (.stopped, afterScreen)
          else
            match e.pid with
            | some _ => (.stopped, afterScreen ++ [StopAction.killProcess])
            | none => (.stopped, afterScreen)

/-! ## Minecraft `start` (minecraft.py lines 152-190) -/

inductive StartAction where
  | systemctlStart
  | screenLaunch
  deriving DecidableEq, Repr

inductive StartResult where
  /-- HTTP 400, body `Server is already running`. -/
  | alreadyRunningError
  /-- HTTP 200, body `status: starting`. -/
  | starting
  /-- HTTP 404, server jar not found. -/
  | jarNotFound
  /-- HTTP 500, fallback launch returned nonzero. -/
  | startFailed
  /-- HTTP 500 from the outer exception handler. -/
  | exceptionError
  deriving DecidableEq, Repr

structure StartEnv where
  detectAtEntry : DetectEnv
  /-- return code of `sudo systemctl start minecraft`; `none` = raised. -/
  systemctlRc : Option Nat
  jarExists : Bool
  /-- return code of the screen-session launch; `none` = raised. -/
  screenLaunchRc : Option Nat
  deriving DecidableEq, Repr

def start (e : StartEnv) : StartResult × List StartAction :=
  if is_server_running e.detectAtEntry then
    (.alreadyRunningError, [])
  else
    match e.systemctlRc with
    | none => (.exceptionError, [.systemctlStart])
    | some rc =>
      if rc = 0 then (.starting, [.systemctlStart])
      else if ¬ e.jarExists then (.jarNotFound, [.systemctlStart])
      else
        match e.screenLaunchRc with
        | none => (.exceptionError, [.systemctlStart, .screenLaunch])
        | some rc2 =>
          if rc2 = 0 then (.starting, [.systemctlStart, .screenLaunch])
          else (.startFailed, [.systemctlStart, .screenLaunch])

/-! ## Minecraft `restart` (minecraft.py lines 255-269)

`restart` calls `stop()` when the server is detected running, sleeps, then
calls `start()` unconditionally and returns `status: restarting`, discarding
both inner results. -/

structure RestartEnv where
  /-- external state seen by `restart`'s own `is_server_running()` call. -/
  detectAtEntry : DetectEnv
  stopEnv : StopEnv
  startEnv : StartEnv
  deriving DecidableEq, Repr

inductive RestartResult where
  /-- HTTP 200, body `status: restarting`. -/
  | restarting
  deriving DecidableEq, Repr

def restart (e : RestartEnv) : RestartResult × List StopAction × List StartAction :=
  let stopTrace :=
    if is_server_running e.detectAtEntry then (stop e.stopEnv).2 else []
  let startTrace := (start e.startEnv).2
  (.restarting, stopTrace, startTrace)

/-! ## Printer status cache (printer.py)

`_printer_cache` is a process-wide dictionary; we model it as a structure.
Timestamps are modelled as integer seconds (`datetime.now()` becomes an
explicit `now` parameter); `last_update` is `none` until the first merge. -/

structure PrinterCache where
  status : String
  jobName : Option String
  progress : Int
  eta : Option String
  nozzleTemp : Int
  bedTemp : Int
  filament : Option String
  alert : Option String
  last_update : Option Int
  connected : Bool
  mode : String
  deriving DecidableEq, Repr

/-- The initial value of `_printer_cache` (printer.py lines 33-45). -/
def initialPrinterCache : PrinterCache :=
  { status := "IDLE", jobName := none, progress := 0, eta := none
    nozzleTemp := 0, bedTemp := 0, filament := none, alert := none
    last_update := none, connected := false, mode := "unknown" }

/-! ### MQTT push merge (`update_printer_status_from_mqtt`, lines 80-109)

An MQTT payload may contain `print`, `temperature` and `ams` sections; within
a present section each key may itself be absent, in which case the code's
`.get(key, default)` substitutes a default. `none` in the section options
below means the section/key is absent from the payload. -/

structure MqttPrintSection where
  mc_print_stage : Option String
  mc_percent : Option Int
  subtask_name : Option String
  mc_remaining_time : Option Int
  deriving DecidableEq, Repr

structure MqttTempSection where
  nozzle_temper : Option Int
  bed_temper : Option Int
  deriving DecidableEq, Repr

structure MqttAmsSection where
  tray_now : Option String
  deriving DecidableEq, Repr

structure MqttData where
  printSec : Option MqttPrintSection
  temperatureSec : Option MqttTempSection
  amsSec : Option MqttAmsSection
  deriving DecidableEq, Repr

/-- Python `f"{n:02d}"` for a nonnegative integer. -/
def pad2 (n : Int) : String :=
  if n < 10 then "0" ++ toString n else toString n

/-- The ETA string `f"{hours:02d}:{minutes:02d}"` built from a remaining-time
in minutes (printer.py lines 92-95). -/
def etaString (remaining : Int) : String :=
  pad2 (remaining / 60) ++ ":" ++ pad2 (remaining % 60)

def update_printer_status_from_mqtt (now : Int) (c : PrinterCache)
    (d : MqttData) : PrinterCache :=
  let c1 :=
    match d.printSec with
    | none => c
    | some p =>
      let base := { c with
        status := p.mc_print_stage.getD "IDLE"
        progress := p.mc_percent.getD 0
        jobName := p.subtask_name }
      let remaining := p.mc_remaining_time.getD 0
      if remaining > 0 then { base with eta := some (etaString remaining) }
      else { base with eta := none }
  let c2 :=
    match d.temperatureSec with
    | none => c1
    | some t => { c1 with
        nozzleTemp := t.nozzle_temper.getD 0
        bedTemp := t.bed_temper.getD 0 }
  let c3 :=
    match d.amsSec with
    | none => c2
    | some a => { c2 with filament := some (a.tray_now.getD "--") }
  { c3 with last_update := some now, connected := true }

/-! ### Manual override merge (`update_status`, POST /status, lines 292-319)

Each cache field is overwritten only when the corresponding key is present in
the request body (`if key in data`). The outer option is key presence; for
nullable fields the inner option is the JSON value (null = `none`). -/

structure ManualUpdate where
  status : Option String
  jobName : Option (Option String)
  progress : Option Int
  eta : Option (Option String)
  nozzleTemp : Option Int
  bedTemp : Option Int
  filament : Option (Option String)
  deriving DecidableEq, Repr

def update_status (now : Int) (c : PrinterCache) (d : ManualUpdate) :
    PrinterCache :=
  let c1 := match d.status with | none => c | some v => { c with status := v }
  let c2 := match d.jobName with | none => c1 | some v => { c1 with jobName := v }
  let c3 := match d.progress with | none => c2 | some v => { c2 with progress := v }
  let c4 := match d.eta with | none => c3 | some v => { c3 with eta := v }
  let c5 := match d.nozzleTemp with | none => c4 | some v => { c4 with nozzleTemp := v }
  let c6 := match d.bedTemp with | none => c5 | some v => { c5 with bedTemp := v }
  let c7 := match d.filament with | none => c6 | some v => { c6 with filament := v }
  { c7 with last_update := some now, connected := true, mode := "manual" }

/-! ### HTTP poll merge (`update_printer_status_from_http`, lines 151-161) -/

structure HttpData where
  status : Option String
  progress : Option Int
  job_name : Option String
  nozzle_temp : Option Int
  bed_temp : Option Int
  deriving DecidableEq, Repr

def update_printer_status_from_http (now : Int) (c : PrinterCache)
    (d : HttpData) : PrinterCache :=
  { c with
    status := d.status.getD "IDLE"
    progress := d.progress.getD 0
    jobName := d.job_name
    nozzleTemp := d.nozzle_temp.getD 0
    bedTemp := d.bed_temp.getD 0
    last_update := some now
    connected := true }

/-! ### Status read (`get_printer_status`, lines 199-229)

The read first applies the staleness policy (threshold 60 s), then, when a
printer IP is configured and MQTT is not connected, tries to (re)establish the
MQTT subscription and falls back to an HTTP poll. Every probe failure is
absorbed inside the Python function (`init_mqtt_client`, `try_http_status` and
`check_printer_reachable` each swallow their exceptions and report a boolean),
so the embedded read is a total function into `PrinterCache`: it never fails.
A successful `init_mqtt_client` runs the connect callback, which sets the
cache's `mode` to `lan` (lines 51-64); the synchronous read path itself merges
no data in that case. -/

structure PrinterEnv where
  /-- `BAMBU_PRINTER_IP` is configured (nonempty). -/
  printerIpSet : Bool
  /-- `_mqtt_connected` at entry to the read. -/
  mqttConnected : Bool
  /-- `init_mqtt_client()` succeeds when attempted. -/
  initMqttSucceeds : Bool
  /-- `check_printer_reachable(PRINTER_IP)` reports true. -/
  reachable : Bool
  /-- the first HTTP endpoint answering 200, if any; `none` = every endpoint
      failed (or the requests library is missing). -/
  httpResult : Option HttpData
  deriving DecidableEq, Repr

/-- The staleness policy (printer.py lines 208-212): a cache whose
`last_update` lies more than 60 seconds in the past loses its `connected`
flag; no other field changes. -/
def markStale (now : Int) (c : PrinterCache) : PrinterCache :=
  match c.last_update with
  | none => c
  | some t => if now - t > 60 then { c with connected := false } else c

def get_printer_status (now : Int) (env : PrinterEnv) (c : PrinterCache) :
    PrinterCache :=
  let c1 := markStale now c
  if ¬ env.printerIpSet then c1
  else if env.mqttConnected then c1
  else if env.initMqttSucceeds then { c1 with mode := "lan" }
  else if env.reachable then
    match env.httpResult with
    | none => c1
    | some d => { update_printer_status_from_http now c1 d with mode := "cloud" }
  else c1

/-! ## Printer control (printer.py lines 231-270 and the pause/resume/stop
routes, lines 321-373)

`send_mqtt_command` publishes on the request topic unless MQTT is down or the
publish raises; `control_printer` maps the action through a fixed table first.
Each control route independently rejects with HTTP 400 before calling
`control_printer` when MQTT is not connected. The routes never touch
`_printer_cache`. -/

structure ControlEnv where
  mqttConnected : Bool
  /-- `_mqtt_client` is not `None`. -/
  mqttClientExists : Bool
  /-- building or publishing the payload raises. -/
  publishRaises : Bool
  deriving DecidableEq, Repr

def command_map (action : String) : Option String :=
  if action = "pause" then some "pause"
  else if action = "resume" then some "resume"
  else if action = "stop" then some "stop"
  else none

/-- Returns (success, list of commands actually published). -/
def send_mqtt_command (env : ControlEnv) (cmd : String) : Bool × List String :=
  if ¬ env.mqttConnected ∨ ¬ env.mqttClientExists then (false, [])
  else if env.publishRaises then (false, [])
  else (true, [cmd])

def control_printer (env : ControlEnv) (action : String) : Bool × List String :=
  if ¬ env.mqttConnected then (false, [])
  else
    match command_map action with
    | none => (false, [])
    | some cmd => send_mqtt_command env cmd

inductive ControlResponse where
  /-- HTTP 400: control requires LAN Only Mode. -/
  | notLanError
  /-- HTTP 200 with the route's success body. -/
  | ok
  /-- HTTP 500: `control_printer` reported failure. -/
  | failed
  deriving DecidableEq, Repr

/-- Shared shape of the pause / resume / stop routes: the route's response,
the commands published, and the cache after the request (the routes never
write the cache). -/
def control_route (env : ControlEnv) (action : String) (c : PrinterCache) :
    ControlResponse × List String × PrinterCache :=
  if ¬ env.mqttConnected then (.notLanError, [], c)
  else
    match control_printer env action with
    | (true, t) => (.ok, t, c)
    | (false, t) => (.failed, t, c)

def pause_route (env : ControlEnv) (c : PrinterCache) :
    ControlResponse × List String × PrinterCache :=
  control_route env "pause" c

def resume_route (env : ControlEnv) (c : PrinterCache) :
    ControlResponse × List String × PrinterCache :=
  control_route env "resume" c

def stop_route (env : ControlEnv) (c : PrinterCache) :
    ControlResponse × List String × PrinterCache :=
  control_route env "stop" c

/-! ## Minecraft log endpoint (`get_log`, minecraft.py lines 334-355)

`lines = min(int(request.args['lines']), 500)`, then
`log_lines[-lines:] if len(log_lines) > lines else log_lines`. The requested
count is a (possibly zero or negative) integer; the Python slice
`log_lines[-lines:]` is modelled by `pySliceFromEnd`. The file is opened
read-only and only `readlines` is called, so the read is pure in the file's
contents. -/

/-- Python `xs[-k:]` for an arbitrary integer `k`: start index `-k`, i.e.
the last `k` elements when `k > 0` (all of them when `k ≥ len`), everything
when `k = 0`, and `xs[(-k):]` — dropping the first `-k` — when `k < 0`. -/
def pySliceFromEnd (xs : List String) (k : Int) : List String :=
  if 0 < k then xs.drop (xs.length - k.toNat)
  else xs.drop (-k).toNat

/-- Returns (the lines of the response, `total_lines`). -/
def get_log (logLines : List String) (requested : Int) :
    List String × Nat :=
  let lines := min requested 500
  let recent :=
    if (logLines.length : Int) > lines then pySliceFromEnd logLines lines
    else logLines
  (recent, logLines.length)

/-! ## Concrete external states used by witnesses and counterexamples -/

/-- Detection state: systemd reports the service active. -/
def detRunning : DetectEnv := ⟨some true, some false, some false⟩

/-- Detection state: every probe reports negative. -/
def detStopped : DetectEnv := ⟨some false, some false, some false⟩

/-- Detection state: the service is inactive but a screen session and a java
process exist (running via the screen fallback). -/
def detScreenRunning : DetectEnv := ⟨some false, some true, some true⟩

/-! ## Claims about the Minecraft lifecycle controller -/

/-- C6: `stop` on a device whose entry detection reports stopped returns the
`Server is not running` error (HTTP 400) with an empty action trace, and
`start` on a device whose entry detection reports running returns the
`Server is already running` error (HTTP 400) with an empty action trace:
precondition violations cause an immediate error before any external
action is issued and change no state. -/
theorem stop_start_precondition_errors (se : StopEnv) (ste : StartEnv)
    (hs : is_server_running se.detectAtEntry = false)
    (hr : is_server_running ste.detectAtEntry = true) :
    stop se = (.notRunningError, []) ∧ start ste = (.alreadyRunningError, []) := by
  constructor
  · simp [stop, hs]
  · simp [start, hr]

/-- Witness for C6 at concrete external states. -/
theorem stop_start_precondition_errors_witness :
    stop ⟨detStopped, some 0, true, false, detStopped, false, detStopped, none⟩ =
      (.notRunningError, []) ∧
    start ⟨detRunning, some 0, true, some 0⟩ = (.alreadyRunningError, []) :=
  stop_start_precondition_errors _ _ (by decide) (by decide)

/-- C7 counterexample: in an external state where the systemd probe raises
(e.g. times out) while the screen-session probe would report positive,
`is_server_running` returns `false` (Stopped) — so the claim that Stopped is
returned only when all probes report negative is false: the bare `except`
around the whole chain aborts the remaining probes instead of advancing to
the next one. -/
theorem detect_stopped_despite_positive_probe :
    is_server_running ⟨none, some true, some true⟩ = false ∧
    (⟨none, some true, some true⟩ : DetectEnv).screenHasSession = some true ∧
    (⟨none, some true, some true⟩ : DetectEnv).javaPaperProc = some true := by
  decide

/-- C7 (amended): `is_server_running` consults its probes in the fixed order
systemd query, screen query, process scan; it returns Running exactly when
some probe reports positive and every earlier probe reported negative
(an erroring probe aborts the chain and yields Stopped); and it is
deterministic — equal external states give equal results. -/
theorem detect_first_positive_and_deterministic (e : DetectEnv) :
    (is_server_running e = true ↔
      e.systemdActive = some true ∨
      (e.systemdActive = some false ∧ e.screenHasSession = some true) ∨
      (e.systemdActive = some false ∧ e.screenHasSession = some false ∧
        e.javaPaperProc = some true)) ∧
    (∀ e2 : DetectEnv, e = e2 → is_server_running e = is_server_running e2) := by
  obtain ⟨s, sc, j⟩ := e
  refine ⟨?_, fun e2 h => by rw [h]⟩
  rcases s with _ | _ | _ <;> rcases sc with _ | _ | _ <;>
    rcases j with _ | _ | _ <;> simp [is_server_running]

/-- Witness for C7 (amended) at a concrete external state. -/
theorem detect_first_positive_and_deterministic_witness :
    (is_server_running detScreenRunning = true ↔
      detScreenRunning.systemdActive = some true ∨
      (detScreenRunning.systemdActive = some false ∧
        detScreenRunning.screenHasSession = some true) ∨
      (detScreenRunning.systemdActive = some false ∧
        detScreenRunning.screenHasSession = some false ∧
        detScreenRunning.javaPaperProc = some true)) ∧
    is_server_running detScreenRunning = is_server_running detScreenRunning := by
  have h := detect_first_positive_and_deterministic detScreenRunning
  exact ⟨h.1, h.2 detScreenRunning rfl⟩

/-- C1 counterexample: in an external state where the server is detected
running, `systemctl stop` returns exit code 0, and every later detection
still reports the server running, `stop` returns success after the first
action alone — no post-action wait or fresh detection check happens at step
one, and success is declared although no post-wait detection ever reported
stopped. -/
theorem stop_step_one_skips_verification :
    stop ⟨detRunning, some 0, true, false, detRunning, false, detRunning, some 5⟩ =
      (.stopped, [.systemctlStop]) ∧
    is_server_running
      (⟨detRunning, some 0, true, false, detRunning, false, detRunning, some 5⟩ :
        StopEnv).detectAfterRcon = true ∧
    is_server_running
      (⟨detRunning, some 0, true, false, detRunning, false, detRunning, some 5⟩ :
        StopEnv).detectAfterScreen = true := by
  decide

/-- C1 (amended): the escalation steps run strictly in order, but the first
step (service-manager stop) terminates with success as soon as its command
returns exit code 0, with no wait and no fresh detection; the second (protocol
stop, when the rcon binary exists) and third (screen console stop) steps each
issue their action, wait, re-detect, and terminate with success at the first
whose post-wait detection reports stopped. In particular, when the service
stop returns nonzero, rcon is available and raises nothing, the post-rcon
detection still reports running, and only the post-screen detection reports
stopped, the result is success with exactly three action invocations, in
order. -/
theorem stop_escalation_order (e : StopEnv) (rc : Nat)
    (h1 : is_server_running e.detectAtEntry = true) :
    (e.systemctlRc = some 0 → stop e = (.stopped, [.systemctlStop])) ∧
    (e.systemctlRc = some rc → rc ≠ 0 → e.mcrconExists = true →
      e.rconRaises = false → is_server_running e.detectAfterRcon = false →
      stop e = (.stopped, [.systemctlStop, .rconStop])) ∧
    (e.systemctlRc = some rc → rc ≠ 0 → e.mcrconExists = true →
      e.rconRaises = false → is_server_running e.detectAfterRcon = true →
      e.screenRaises = false → is_server_running e.detectAfterScreen = false →
      stop e = (.stopped, [.systemctlStop, .rconStop, .screenStuffStop])) := by
  refine ⟨fun h0 => by simp [stop, h1, h0], ?_, ?_⟩
  · intro hrc hne hmc hnr hdet
    simp [stop, h1, hrc, hne, hmc, hnr, hdet]
  · intro hrc hne hmc hnr hdet hsr hdet2
    simp [stop, h1, hrc, hne, hmc, hnr, hdet, hsr, hdet2]

/-- Witness for C1 (amended): the three-step scenario at a concrete external
state — exactly three actions, in order. -/
theorem stop_escalation_order_witness :
    stop ⟨detRunning, some 1, true, false, detScreenRunning, false, detStopped, some 5⟩ =
      (.stopped, [.systemctlStop, .rconStop, .screenStuffStop]) :=
  (stop_escalation_order
      ⟨detRunning, some 1, true, false, detScreenRunning, false, detStopped, some 5⟩ 1
      (by decide)).2.2 rfl (by decide) rfl rfl (by decide) rfl (by decide)

/-- C2 counterexample: in an external state where every escalation step runs,
the process is killed, and the last available detection still reports the
server running, `stop` nevertheless returns the success body
`status: stopped` — no distinct failure outcome exists in the code and no
message names the failed step (there is not even a detection check after the
kill). -/
theorem stop_reports_success_after_failed_kill :
    stop ⟨detRunning, some 1, true, false, detRunning, false, detRunning, some 5⟩ =
      (.stopped,
        [.systemctlStop, .rconStop, .screenStuffStop, .killProcess]) ∧
    is_server_running
      (⟨detRunning, some 1, true, false, detRunning, false, detRunning, some 5⟩ :
        StopEnv).detectAfterScreen = true := by
  decide

/-- C2 (amended): when the escalation chain is exhausted — the service stop
returned nonzero, the rcon step did not verify stopped, the screen step did
not verify stopped — `stop` issues the forced termination as its last action
and still returns the success outcome `status: stopped`, never a failure
naming the step that failed last. -/
theorem stop_final_step_returns_success (e : StopEnv) (rc : Nat) (p : Nat)
    (h1 : is_server_running e.detectAtEntry = true)
    (h2 : e.systemctlRc = some rc) (h3 : rc ≠ 0)
    (h4 : ¬(e.mcrconExists = true ∧ e.rconRaises = false ∧
      is_server_running e.detectAfterRcon = false))
    (h5 : ¬(e.screenRaises = false ∧ is_server_running e.detectAfterScreen = false))
    (h6 : e.pid = some p) :
    stop e = (.stopped,
      (if e.mcrconExists then [StopAction.systemctlStop, .rconStop]
        else [StopAction.systemctlStop]) ++
      [StopAction.screenStuffStop, .killProcess]) := by
  simp [stop, h1, h2, h3, h4, h5, h6, List.append_assoc]

/-- Witness for C2 (amended) at a concrete external state. -/
theorem stop_final_step_returns_success_witness :
    stop ⟨detRunning, some 1, true, false, detRunning, false, detRunning, some 5⟩ =
      (.stopped,
        (if (true : Bool) then [StopAction.systemctlStop, .rconStop]
          else [StopAction.systemctlStop]) ++
        [StopAction.screenStuffStop, .killProcess]) :=
  stop_final_step_returns_success
    ⟨detRunning, some 1, true, false, detRunning, false, detRunning, some 5⟩ 1 5
    (by decide) rfl (by decide) (by decide) (by decide) rfl

/-- C3 counterexample: in an external state where the server is detected
running at every point — the stop phase fails to bring the device to the
stopped state (even the kill leaves it detected running) — `restart` returns
the success body `status: restarting`, not the stop failure: the code
discards `stop()`'s return value and proceeds unconditionally. -/
theorem restart_ignores_stop_failure :
    (restart ⟨detRunning,
        ⟨detRunning, some 1, true, false, detRunning, false, detRunning, some 5⟩,
        ⟨detRunning, some 0, true, some 0⟩⟩).1 = .restarting ∧
    is_server_running
      (⟨detRunning, some 1, true, false, detRunning, false, detRunning, some 5⟩ :
        StopEnv).detectAfterScreen = true := by
  decide

/-- C3 (amended): `restart` ignores the stop phase's outcome and always
proceeds to call `start`, returning `status: restarting` regardless of
whether the device was brought to the stopped state; when the device is still
detected running at `start`'s entry, `start`'s own precondition check returns
`AlreadyRunning` — which `restart` discards — and no start method is issued. -/
theorem restart_unconditionally_starts (e : RestartEnv)
    (hrun : is_server_running e.startEnv.detectAtEntry = true) :
    (restart e).1 = .restarting ∧ (restart e).2.2 = [] ∧
    (start e.startEnv).1 = .alreadyRunningError := by
  refine ⟨rfl, ?_, ?_⟩ <;> simp [restart, start, hrun]

/-- Witness for C3 (amended) at a concrete external state. -/
theorem restart_unconditionally_starts_witness :
    (restart ⟨detRunning,
        ⟨detRunning, some 1, true, false, detRunning, false, detRunning, some 5⟩,
        ⟨detScreenRunning, some 0, true, some 0⟩⟩).1 = .restarting ∧
    (restart ⟨detRunning,
        ⟨detRunning, some 1, true, false, detRunning, false, detRunning, some 5⟩,
        ⟨detScreenRunning, some 0, true, some 0⟩⟩).2.2 = [] ∧
    (start ⟨detScreenRunning, some 0, true, some 0⟩).1 = .alreadyRunningError :=
  restart_unconditionally_starts _ (by decide)

/-! ## Claims about the printer status cache -/

/-- The poll path delivers fresh data during a read exactly when a printer IP
is configured, MQTT is neither already connected nor freshly connected, the
printer answers the reachability check, and some HTTP endpoint returns 200. -/
def pollDeliversFresh (env : PrinterEnv) : Bool :=
  env.printerIpSet && !env.mqttConnected && !env.initMqttSucceeds &&
    env.reachable && env.httpResult.isSome

/-- C4: for every cache whose `last_update` lies more than 60 seconds
(the staleness threshold) in the past, a status read during which the poll
path delivers no fresh data returns `connected = false` while every stored
field value — status, job name, progress, ETA, both temperatures, filament —
is returned unchanged: staleness only flips the trust flag, it never nulls
or clears a field. -/
theorem stale_read_preserves_fields (now t : Int) (env : PrinterEnv)
    (c : PrinterCache)
    (h1 : c.last_update = some t) (h2 : now - t > 60)
    (h3 : pollDeliversFresh env = false) :
    (get_printer_status now env c).connected = false ∧
    (get_printer_status now env c).status = c.status ∧
    (get_printer_status now env c).jobName = c.jobName ∧
    (get_printer_status now env c).progress = c.progress ∧
    (get_printer_status now env c).eta = c.eta ∧
    (get_printer_status now env c).nozzleTemp = c.nozzleTemp ∧
    (get_printer_status now env c).bedTemp = c.bedTemp ∧
    (get_printer_status now env c).filament = c.filament := by
  obtain ⟨ip, mq, ini, re, hr⟩ := env
  simp only [pollDeliversFresh, Bool.and_eq_false_iff] at h3
  have hms : markStale now c = { c with connected := false } := by
    simp [markStale, h1, h2]
  cases ip <;> cases mq <;> cases ini <;> cases re <;>
    rcases hr with _ | d <;>
      simp_all [get_printer_status, markStale, h1, h2]

/-- A concrete last-known snapshot, 90 seconds old at read time 100. -/
def staleCacheEx : PrinterCache :=
  { initialPrinterCache with
      jobName := some "J"
      progress := 42
      last_update := some 10
      connected := true }

/-- A probe environment in which the printer is configured but unreachable
and MQTT is down. -/
def degradedEnvEx : PrinterEnv := ⟨true, false, false, false, none⟩

/-- Witness for C4 at a concrete stale cache and an all-degraded probe
environment. -/
theorem stale_read_preserves_fields_witness :
    (get_printer_status 100 degradedEnvEx staleCacheEx).connected = false ∧
    (get_printer_status 100 degradedEnvEx staleCacheEx).status =
      staleCacheEx.status ∧
    (get_printer_status 100 degradedEnvEx staleCacheEx).jobName =
      staleCacheEx.jobName ∧
    (get_printer_status 100 degradedEnvEx staleCacheEx).progress =
      staleCacheEx.progress ∧
    (get_printer_status 100 degradedEnvEx staleCacheEx).eta =
      staleCacheEx.eta ∧
    (get_printer_status 100 degradedEnvEx staleCacheEx).nozzleTemp =
      staleCacheEx.nozzleTemp ∧
    (get_printer_status 100 degradedEnvEx staleCacheEx).bedTemp =
      staleCacheEx.bedTemp ∧
    (get_printer_status 100 degradedEnvEx staleCacheEx).filament =
      staleCacheEx.filament :=
  stale_read_preserves_fields 100 10 _ _ rfl (by decide) (by decide)

/-- C8: the status read is a total function — every probe failure is absorbed
inside it — and when every probe fails (MQTT not connected, the reconnection
attempt fails, and the printer is unreachable or every HTTP endpoint fails),
the read returns exactly the cached snapshot with the staleness policy
applied to its `connected` flag: `connected` is dropped when the data is
older than 60 seconds and the snapshot is returned untouched otherwise. -/
theorem refresh_degrades_to_cache (now : Int) (env : PrinterEnv)
    (c : PrinterCache)
    (h1 : env.mqttConnected = false) (h2 : env.initMqttSucceeds = false)
    (h3 : env.reachable = false ∨ env.httpResult = none) :
    get_printer_status now env c = markStale now c ∧
    (∀ t, c.last_update = some t → now - t > 60 →
      (markStale now c).connected = false) ∧
    (∀ t, c.last_update = some t → ¬ now - t > 60 → markStale now c = c) := by
  refine ⟨?_, ?_, ?_⟩
  · obtain ⟨ip, mq, ini, re, hr⟩ := env
    cases ip <;> rcases h3 with h3 | h3 <;>
      simp_all [get_printer_status]
  · intro t ht hgt
    simp [markStale, ht, hgt]
  · intro t ht hle
    simp [markStale, ht, hle]

/-- Witness for C8 at a concrete cache and all-failing probe environment. -/
theorem refresh_degrades_to_cache_witness :
    get_printer_status 100 ⟨true, false, false, true, none⟩
        { initialPrinterCache with last_update := some 90, connected := true } =
      markStale 100
        { initialPrinterCache with last_update := some 90, connected := true } ∧
    markStale 100
        { initialPrinterCache with last_update := some 90, connected := true } =
      { initialPrinterCache with last_update := some 90, connected := true } := by
  have h := refresh_degrades_to_cache 100 ⟨true, false, false, true, none⟩
    { initialPrinterCache with last_update := some 90, connected := true }
    rfl rfl (Or.inr rfl)
  exact ⟨h.1, h.2.2 90 rfl (by decide)⟩

/-- A cache mid-print: a job name, progress and an ETA are stored. -/
def midPrintCacheEx : PrinterCache :=
  { initialPrinterCache with
      jobName := some "X"
      progress := 50
      eta := some "01:30" }

/-- An MQTT payload whose `print` section carries only `mc_print_stage`. -/
def sparsePrintMsgEx : MqttData :=
  ⟨some ⟨some "RUNNING", none, none, none⟩, none, none⟩

/-- C5 counterexample: a push (MQTT) payload whose `print` section is present
but carries no `subtask_name`, `mc_percent` or `mc_remaining_time` keys
clears the previously stored job name, progress and ETA — the merge resets
fields the update did not report, contradicting field-level overlay. -/
theorem mqtt_merge_clears_unreported_fields :
    (update_printer_status_from_mqtt 100 midPrintCacheEx
        sparsePrintMsgEx).jobName = none ∧
    (update_printer_status_from_mqtt 100 midPrintCacheEx
        sparsePrintMsgEx).progress = 0 ∧
    (update_printer_status_from_mqtt 100 midPrintCacheEx
        sparsePrintMsgEx).eta = none ∧
    midPrintCacheEx.jobName = some "X" ∧
    midPrintCacheEx.progress = 50 ∧
    midPrintCacheEx.eta = some "01:30" := by
  refine ⟨rfl, rfl, rfl, rfl, rfl, rfl⟩

/-- C5 (amended): the manual-override merge is a true field-level overlay —
each cache field is overwritten exactly when its key is present in the update
and kept otherwise (so sequences of manual merges with disjoint field sets
accumulate the union with last-write-wins) — while the push (MQTT) merge
overlays at section granularity: fields of sections absent from the payload
are left untouched, but inside a present `print` section, keys absent from
the payload reset the corresponding fields to their defaults
(status `IDLE`, progress 0, job name and ETA cleared). -/
theorem merge_overlay_characterization (now : Int) (c : PrinterCache)
    (m : ManualUpdate) (d : MqttData) :
    ((update_status now c m).status = m.status.getD c.status ∧
     (update_status now c m).jobName = m.jobName.getD c.jobName ∧
     (update_status now c m).progress = m.progress.getD c.progress ∧
     (update_status now c m).eta = m.eta.getD c.eta ∧
     (update_status now c m).nozzleTemp = m.nozzleTemp.getD c.nozzleTemp ∧
     (update_status now c m).bedTemp = m.bedTemp.getD c.bedTemp ∧
     (update_status now c m).filament = m.filament.getD c.filament ∧
     (update_status now c m).connected = true) ∧
    (d.printSec = none →
      (update_printer_status_from_mqtt now c d).status = c.status ∧
      (update_printer_status_from_mqtt now c d).jobName = c.jobName ∧
      (update_printer_status_from_mqtt now c d).progress = c.progress ∧
      (update_printer_status_from_mqtt now c d).eta = c.eta) ∧
    (d.temperatureSec = none →
      (update_printer_status_from_mqtt now c d).nozzleTemp = c.nozzleTemp ∧
      (update_printer_status_from_mqtt now c d).bedTemp = c.bedTemp) ∧
    (d.amsSec = none →
      (update_printer_status_from_mqtt now c d).filament = c.filament) ∧
    (∀ p : MqttPrintSection, d.printSec = some p →
      (update_printer_status_from_mqtt now c d).status =
        p.mc_print_stage.getD "IDLE" ∧
      (update_printer_status_from_mqtt now c d).jobName = p.subtask_name ∧
      (update_printer_status_from_mqtt now c d).progress =
        p.mc_percent.getD 0 ∧
      (p.mc_remaining_time = none →
        (update_printer_status_from_mqtt now c d).eta = none)) := by
  obtain ⟨ms, mj, mp, me, mn, mb, mf⟩ := m
  refine ⟨?_, ?_, ?_, ?_, ?_⟩
  · rcases ms with _ | ms <;> rcases mj with _ | mj <;> rcases mp with _ | mp <;>
      rcases me with _ | me <;> rcases mn with _ | mn <;> rcases mb with _ | mb <;>
        rcases mf with _ | mf <;>
          exact ⟨rfl, rfl, rfl, rfl, rfl, rfl, rfl, rfl⟩
  · intro hp
    obtain ⟨_, ts, as⟩ := d
    cases hp
    rcases ts with _ | t <;> rcases as with _ | a <;>
      exact ⟨rfl, rfl, rfl, rfl⟩
  · intro ht
    obtain ⟨ps, ts, as⟩ := d
    cases ht
    rcases ps with _ | p <;> rcases as with _ | a <;>
      simp only [update_printer_status_from_mqtt] <;>
        first
        | exact ⟨rfl, rfl⟩
        | exact ⟨trivial, trivial⟩
        | (split <;> exact ⟨rfl, rfl⟩)
  · intro ha
    obtain ⟨ps, ts, as⟩ := d
    cases ha
    rcases ps with _ | p <;> rcases ts with _ | t <;>
      simp only [update_printer_status_from_mqtt] <;>
        first
        | rfl
        | (split <;> rfl)
  · intro p hp
    obtain ⟨ps, ts, as⟩ := d
    cases hp
    refine ⟨?_, ?_, ?_, ?_⟩
    · rcases ts with _ | t <;> rcases as with _ | a <;>
        simp only [update_printer_status_from_mqtt] <;>
          first | rfl | (split <;> rfl)
    · rcases ts with _ | t <;> rcases as with _ | a <;>
        simp only [update_printer_status_from_mqtt] <;>
          first | rfl | (split <;> rfl)
    · rcases ts with _ | t <;> rcases as with _ | a <;>
        simp only [update_printer_status_from_mqtt] <;>
          first | rfl | (split <;> rfl)
    · intro hr
      rcases ts with _ | t <;> rcases as with _ | a <;>
        simp [update_printer_status_from_mqtt, hr]

/-- Witness for C5 (amended) at concrete updates. -/
theorem merge_overlay_characterization_witness :
    (update_status 7 initialPrinterCache
        ⟨some "RUNNING", none, some 33, none, none, none, none⟩).progress = 33 ∧
    (update_status 7 initialPrinterCache
        ⟨some "RUNNING", none, some 33, none, none, none, none⟩).jobName =
      initialPrinterCache.jobName ∧
    (update_printer_status_from_mqtt 7 initialPrinterCache
        ⟨none, some ⟨some 215, some 60⟩, none⟩).status =
      initialPrinterCache.status ∧
    (update_printer_status_from_mqtt 7 initialPrinterCache
        ⟨none, some ⟨some 215, some 60⟩, none⟩).filament =
      initialPrinterCache.filament := by
  have h := merge_overlay_characterization 7 initialPrinterCache
    ⟨some "RUNNING", none, some 33, none, none, none, none⟩
    ⟨none, some ⟨some 215, some 60⟩, none⟩
  exact ⟨h.1.2.2.1, h.1.2.1, (h.2.1 rfl).1, h.2.2.2.1 rfl⟩

/-- C9: each printer control route (pause, resume, stop) rejects with the
HTTP 400 LAN-mode error when MQTT is not connected, publishing no command and
leaving the status cache unchanged; and `control_printer` on any action
outside pause/resume/stop reports failure and publishes nothing, in every
environment. -/
theorem control_requires_mqtt (env : ControlEnv) (c : PrinterCache)
    (a : String) (hdis : env.mqttConnected = false) :
    pause_route env c = (.notLanError, [], c) ∧
    resume_route env c = (.notLanError, [], c) ∧
    stop_route env c = (.notLanError, [], c) ∧
    (∀ env2 : ControlEnv, a ≠ "pause" → a ≠ "resume" → a ≠ "stop" →
      control_printer env2 a = (false, [])) := by
  refine ⟨?_, ?_, ?_, ?_⟩
  · simp [pause_route, control_route, hdis]
  · simp [resume_route, control_route, hdis]
  · simp [stop_route, control_route, hdis]
  · intro env2 h1 h2 h3
    simp only [control_printer, command_map, if_neg h1, if_neg h2, if_neg h3]
    split <;> rfl

/-- Witness for C9 at a concrete disconnected environment and an unknown
action. -/
theorem control_requires_mqtt_witness :
    pause_route ⟨false, true, false⟩ initialPrinterCache =
      (.notLanError, [], initialPrinterCache) ∧
    resume_route ⟨false, true, false⟩ initialPrinterCache =
      (.notLanError, [], initialPrinterCache) ∧
    stop_route ⟨false, true, false⟩ initialPrinterCache =
      (.notLanError, [], initialPrinterCache) ∧
    control_printer ⟨true, true, false⟩ "home" = (false, []) := by
  have h := control_requires_mqtt ⟨false, true, false⟩ initialPrinterCache
    "home" rfl
  exact ⟨h.1, h.2.1, h.2.2.1,
    h.2.2.2 ⟨true, true, false⟩ (by decide) (by decide) (by decide)⟩

/-! ## Claims about the log endpoint -/

/-- C10 counterexample: requesting `lines=0` over a two-line log returns both
lines, not the last `min(0, 500, 2) = 0` lines — the Python slice
`log_lines[-0:]` is the whole list, so the clamp-then-slice recipe of the
claim fails for a zero (and likewise negative) requested count. -/
theorem log_zero_request_returns_all :
    (get_log ["a", "b"] 0).1 = ["a", "b"] ∧
    min (min (0 : Int) 500) 2 = 0 := by
  refine ⟨?_, by decide⟩
  rfl

/-- C10 (amended): for every requested count of at least 1, the response
holds exactly the last `min(requested, 500, total)` lines of the log together
with the file's total line count (the requested count is clamped to 500); the
read is a pure function of the file's lines, so the file is not modified. -/
theorem log_returns_clamped_tail (xs : List String) (k : Int) (hk : 1 ≤ k) :
    (get_log xs k).1 =
      xs.drop (xs.length - (min (min k 500) (xs.length : Int)).toNat) ∧
    (get_log xs k).2 = xs.length := by
  refine ⟨?_, rfl⟩
  show (if (xs.length : Int) > min k 500 then pySliceFromEnd xs (min k 500)
    else xs) = _
  by_cases h : (xs.length : Int) > min k 500
  · rw [if_pos h]
    have hmin : min (min k 500) (xs.length : Int) = min k 500 := by omega
    rw [hmin]
    unfold pySliceFromEnd
    rw [if_pos (by omega)]
  · rw [if_neg h]
    have hmin : min (min k 500) (xs.length : Int) = (xs.length : Int) := by
      omega
    rw [hmin, Int.toNat_ofNat, Nat.sub_self, List.drop_zero]

/-- Witness for C10 (amended) at a concrete log and request. -/
theorem log_returns_clamped_tail_witness :
    (get_log ["a", "b", "c"] 2).1 = ["b", "c"] ∧
    (get_log ["a", "b", "c"] 2).2 = 3 := by
  have h := log_returns_clamped_tail ["a", "b", "c"] 2 (by decide)
  refine ⟨?_, h.2⟩
  rw [h.1]
  rfl

end LCARS
